import Mathlib

/-!
Verification of the access-protocol client binding layer.

The development shallowly embeds the two source files:
* `src/unnamed/part_000` — account-query helpers building byte-pattern
  (memcmp) filter lists for the remote program-account scan;
* `src/smart-contract/js/src/bindings.ts` — instruction builders that
  resolve derived addresses, optionally read remote accounts, and return
  instruction descriptors (ordered key list plus payload bytes).

Parts of the repository that the sources import but that are not present
(`state.ts` account decoding, `raw_instructions.ts` payload serialization,
the RPC transport) are modelled from the spec; each such definition's doc
comment starts with `Modelled from the spec:`.
-/

namespace Access

/-- A Solana public key, carried as its 32 raw bytes. -/
structure PublicKey where
  bytes : List Nat
deriving DecidableEq

/-- Modelled from the spec: the canonical string encoding of an address
(`toBase58` in the source). The exact base-58 alphabet lives outside the
repository; a fixed injective rendering of the bytes stands for it. -/
def PublicKey.toBase58 (k : PublicKey) : String :=
  String.intercalate "," (k.bytes.map toString)

/-- Modelled from the spec: the raw byte buffer of an address (`toBuffer`). -/
def PublicKey.toBuffer (k : PublicKey) : List Nat :=
  k.bytes

/-- Discriminator byte value of an active stake pool (spec §3). -/
def activeStakePoolTag : Nat := 2

/-- Discriminator byte value of an inactive stake pool (spec §3). -/
def inactiveStakePoolTag : Nat := 3

/-- Discriminator byte value of a stake account (spec §3). -/
def stakeAccountTag : Nat := 4

/-- Discriminator byte value of an inactive bond account (spec §3). -/
def inactiveBondTag : Nat := 5

/-- Discriminator byte value of an active/signed bond account (spec §3). -/
def activeBondTag : Nat := 6

/-- A byte-pattern filter of the remote account scan: compare the account
data at `offset` against the encoded `bytes` pattern. -/
structure MemcmpFilter where
  offset : Nat
  bytes : String
deriving DecidableEq

/-- The filter list `getStakeAccounts` builds (part_000 lines 14-27). -/
def getStakeAccountsFilters (owner : PublicKey) : List MemcmpFilter :=
  [{ offset := 0, bytes := "4" },
   { offset := 1, bytes := owner.toBase58 }]

/-- The filter list `getStakePools` builds (part_000 lines 43-56). -/
def getStakePoolsFilters (owner : PublicKey) : List MemcmpFilter :=
  [{ offset := 0, bytes := "2" },
   { offset := 1 + 1 + 2 + 4 + 8 + 8 + 8, bytes := owner.toBase58 }]

/-- The filter list `getBondAccounts` builds (part_000 lines 72-85). -/
def getBondAccountsFilters (owner : PublicKey) : List MemcmpFilter :=
  [{ offset := 0, bytes := "6" },
   { offset := 1, bytes := owner.toBase58 }]

/-- The filter list `getAllStakePools` builds (part_000 lines 97-104). -/
def getAllStakePoolsFilters : List MemcmpFilter :=
  [{ offset := 0, bytes := "2" }]

/-- The filter list `getAllInactiveStakePools` builds (part_000 lines 116-123). -/
def getAllInactiveStakePoolsFilters : List MemcmpFilter :=
  [{ offset := 0, bytes := "3" }]

/-- The filter list `getAllInactiveBonds` builds (part_000 lines 135-142). -/
def getAllInactiveBondsFilters : List MemcmpFilter :=
  [{ offset := 0, bytes := "5" }]

/-- The filter list `getAllActiveBonds` builds (part_000 lines 154-161). -/
def getAllActiveBondsFilters : List MemcmpFilter :=
  [{ offset := 0, bytes := "6" }]

/-- Modelled from the spec: a program-owned account as the remote scan sees
it, summarized by its discriminator byte and its owner field (spec §3: each
account type keeps its owner at a fixed byte offset). -/
structure ProgramAccount where
  pubkey : PublicKey
  discriminator : Nat
  ownerOffset : Nat
  owner : PublicKey
deriving DecidableEq

/-- Modelled from the spec (§4.1, §6): the remote byte-filter comparison.
A filter at offset 0 matches the account's discriminator byte; a filter at
the account's owner-field offset matches the owner's canonical encoding;
any other offset matches nothing of the modelled account summary. -/
def matchesFilter (a : ProgramAccount) (f : MemcmpFilter) : Bool :=
  if f.offset = 0 then f.bytes = toString a.discriminator
  else if f.offset = a.ownerOffset then f.bytes = a.owner.toBase58
  else false

/-- An account passes a filter list when it passes every filter in it. -/
def matchesFilters (a : ProgramAccount) (fs : List MemcmpFilter) : Bool :=
  fs.all (matchesFilter a)

/-- Modelled from the spec (§3): the decoded fields of the singleton central
state used by the builders — authority, token mint, daily inflation. -/
structure CentralStateData where
  authority : PublicKey
  tokenMint : PublicKey
  dailyInflation : Nat
deriving DecidableEq

/-- Modelled from the spec (§3): the decoded stake-pool fields the builders
use — owner and vault. -/
structure StakePoolData where
  owner : PublicKey
  vault : PublicKey
deriving DecidableEq

/-- Modelled from the spec (§3): the decoded stake-account fields the
builders use — owner and stake pool. -/
structure StakeAccountData where
  owner : PublicKey
  stakePool : PublicKey
deriving DecidableEq

/-- Modelled from the spec (§3): the decoded bond-account fields the
builders use — owner, stake pool and seller token account. -/
structure BondAccountData where
  owner : PublicKey
  stakePool : PublicKey
  sellerTokenAccount : PublicKey
deriving DecidableEq

/-- Modelled from the spec (§5, §6): the remote account state behind the RPC
endpoint. Each typed read (`retrieve` in `state.ts`, which is not under
`src/`) either decodes the account at a key or raises an error unchanged;
the program-account scan either returns the program's accounts or raises a
transport error. -/
structure RemoteState where
  centralState : PublicKey → Except String CentralStateData
  stakePool : PublicKey → Except String StakePoolData
  stakeAccount : PublicKey → Except String StakeAccountData
  bondAccount : PublicKey → Except String BondAccountData
  programAccounts : Except String (List ProgramAccount)

/-- A remote call: it consumes the remote state and either raises an error
or produces a result together with the remote state after the call. -/
def RpcM (α : Type) : Type :=
  RemoteState → Except String (α × RemoteState)

/-- Sequencing of an awaited remote read with its continuation: an error is
propagated unchanged, a value is handed on. -/
def await {α β : Type} (r : Except String α) (f : α → Except String β) :
    Except String β :=
  match r with
  | .error e => .error e
  | .ok v => f v

/-- Modelled from the spec: `CentralState.retrieve` — fetch and decode the
central state at a key, passing any error through unchanged. -/
def CentralState.retrieve (s : RemoteState) (k : PublicKey) :
    Except String CentralStateData :=
  s.centralState k

/-- Modelled from the spec: `StakePool.retrieve`. -/
def StakePool.retrieve (s : RemoteState) (k : PublicKey) :
    Except String StakePoolData :=
  s.stakePool k

/-- Modelled from the spec: `StakeAccount.retrieve`. -/
def StakeAccount.retrieve (s : RemoteState) (k : PublicKey) :
    Except String StakeAccountData :=
  s.stakeAccount k

/-- Modelled from the spec: `BondAccount.retrieve`. -/
def BondAccount.retrieve (s : RemoteState) (k : PublicKey) :
    Except String BondAccountData :=
  s.bondAccount k

/-- Modelled from the spec: the fixed program address owning every scanned
account (`ACCESS_PROGRAM_ID`, imported by part_000 from the bindings; its
concrete value is external configuration). -/
def ACCESS_PROGRAM_ID : PublicKey :=
  ⟨List.replicate 32 9⟩

/-- Modelled from the spec (§6): the "get program accounts with
byte-filters" RPC call — return the program's accounts that pass every
filter, or the transport's error unchanged. The state holds exactly the
accounts owned by the fixed program address, so the `programId` argument
selects nothing further. -/
def getProgramAccounts (programId : PublicKey) (fs : List MemcmpFilter) :
    RpcM (List ProgramAccount) :=
  fun s =>
    await s.programAccounts fun accts =>
      .ok ((accts.filter fun a => matchesFilters a fs, s))

/-- `getStakeAccounts` (part_000 lines 10-31): scan with the stake-account
discriminator filter and the owner filter at offset 1. -/
def getStakeAccounts (owner : PublicKey) : RpcM (List ProgramAccount) :=
  getProgramAccounts ACCESS_PROGRAM_ID (getStakeAccountsFilters owner)

/-- `getStakePools` (part_000 lines 39-60). -/
def getStakePools (owner : PublicKey) : RpcM (List ProgramAccount) :=
  getProgramAccounts ACCESS_PROGRAM_ID (getStakePoolsFilters owner)

/-- `getBondAccounts` (part_000 lines 68-89). -/
def getBondAccounts (owner : PublicKey) : RpcM (List ProgramAccount) :=
  getProgramAccounts ACCESS_PROGRAM_ID (getBondAccountsFilters owner)

/-- `getAllStakePools` (part_000 lines 96-108). -/
def getAllStakePools : RpcM (List ProgramAccount) :=
  getProgramAccounts ACCESS_PROGRAM_ID getAllStakePoolsFilters

/-- `getAllInactiveStakePools` (part_000 lines 115-127). -/
def getAllInactiveStakePools : RpcM (List ProgramAccount) :=
  getProgramAccounts ACCESS_PROGRAM_ID getAllInactiveStakePoolsFilters

/-- `getAllInactiveBonds` (part_000 lines 134-146). -/
def getAllInactiveBonds : RpcM (List ProgramAccount) :=
  getProgramAccounts ACCESS_PROGRAM_ID getAllInactiveBondsFilters

/-- `getAllActiveBonds` (part_000 lines 153-165). -/
def getAllActiveBonds : RpcM (List ProgramAccount) :=
  getProgramAccounts ACCESS_PROGRAM_ID getAllActiveBondsFilters

/-- The `n`-byte little-endian encoding of a natural number. -/
def natToLE : Nat → Nat → List Nat
  | 0, _ => []
  | k + 1, n => n % 256 :: natToLE k (n / 256)

/-- Read a little-endian byte list back as a natural number. -/
def leToNat : List Nat → Nat
  | [] => 0
  | b :: bs => b + 256 * leToNat bs

/-- Modelled from the spec: the fixed 8-byte little-endian layout of a
64-bit numeric instruction field. -/
def u64le (n : Nat) : List Nat :=
  natToLE 8 n

/-- Modelled from the spec: the binary layout of a string field — 4-byte
little-endian length followed by the character bytes. -/
def strBytes (v : String) : List Nat :=
  natToLE 4 v.length ++ v.data.map Char.toNat

/-- Modelled from the spec: the SPL token program address (`TOKEN_PROGRAM_ID`,
an external constant). -/
def TOKEN_PROGRAM_ID : PublicKey :=
  ⟨List.replicate 32 1⟩

/-- Modelled from the spec: the associated-token program address
(`ASSOCIATED_TOKEN_PROGRAM_ID`, an external constant). -/
def ASSOCIATED_TOKEN_PROGRAM_ID : PublicKey :=
  ⟨List.replicate 32 2⟩

/-- Modelled from the spec: the system program address
(`SystemProgram.programId`, an external constant). -/
def SystemProgram.programId : PublicKey :=
  ⟨List.replicate 32 0⟩

/-- Modelled from the spec (glossary): a derived address, computed
deterministically from a program address and seed values, without an
associated private key; paired with its nonce byte. -/
def findProgramAddress (seeds : List (List Nat)) (programId : PublicKey) :
    PublicKey × Nat :=
  (⟨seeds.flatten ++ programId.bytes⟩, 255)

/-- Modelled from the spec (§3): the central state's derived address is
deterministic from the program address (`CentralState.getKey`). -/
def CentralState.getKey (programId : PublicKey) : PublicKey × Nat :=
  findProgramAddress [programId.bytes] programId

/-- Modelled from the spec: `StakePool.getKey` — derived from the program
address and the owner and destination seeds. -/
def StakePool.getKey (programId owner destination : PublicKey) :
    PublicKey × Nat :=
  findProgramAddress [[activeStakePoolTag], owner.bytes, destination.bytes]
    programId

/-- Modelled from the spec: `StakeAccount.getKey` — derived from the program
address and the owner and stake-pool seeds. -/
def StakeAccount.getKey (programId owner stakePool : PublicKey) :
    PublicKey × Nat :=
  findProgramAddress [[stakeAccountTag], owner.bytes, stakePool.bytes]
    programId

/-- Modelled from the spec: `BondAccount.getKey` — derived from the program
address and the buyer and total-amount seeds. -/
def BondAccount.getKey (programId buyer : PublicKey)
    (totalAmountSold : Nat) : PublicKey × Nat :=
  findProgramAddress [[activeBondTag], buyer.bytes, u64le totalAmountSold]
    programId

/-- Modelled from the spec: `Token.getAssociatedTokenAddress` — the
deterministic associated-token-account derivation. -/
def Token.getAssociatedTokenAddress
    (associatedProgramId tokenProgramId mint owner : PublicKey) : PublicKey :=
  (findProgramAddress [owner.bytes, tokenProgramId.bytes, mint.bytes]
    associatedProgramId).1

/-- An instruction descriptor: the program address it targets, the ordered
account-reference list, and the binary payload. -/
structure TransactionInstruction where
  programId : PublicKey
  keys : List PublicKey
  data : List Nat
deriving DecidableEq

/-- Modelled from the spec: `changeInflationInstruction.getInstruction`
(raw_instructions.ts is not under `src/`) — tag byte 0, then the daily
inflation as a 64-bit field; keys in the order the binding passes them. -/
def changeInflationInstruction.getInstruction (dailyInflation : Nat)
    (programId centralKey authority : PublicKey) : TransactionInstruction :=
  { programId, keys := [centralKey, authority],
    data := 0 :: u64le dailyInflation }

/-- Modelled from the spec: `changePoolMinimumInstruction.getInstruction` —
tag byte 1, then the new minimum as a 64-bit field. -/
def changePoolMinimumInstruction.getInstruction (newMinimum : Nat)
    (programId stakePoolKey owner : PublicKey) : TransactionInstruction :=
  { programId, keys := [stakePoolKey, owner],
    data := 1 :: u64le newMinimum }

/-- Modelled from the spec: `claimBondRewardsInstruction.getInstruction` —
tag byte 2, no argument fields. -/
def claimBondRewardsInstruction.getInstruction
    (programId stakePool bondAccount owner rewardsDestination centralKey
      mint tokenProgram : PublicKey) : TransactionInstruction :=
  { programId,
    keys := [stakePool, bondAccount, owner, rewardsDestination, centralKey,
      mint, tokenProgram],
    data := [2] }

/-- Modelled from the spec: `claimBondInstruction.getInstruction` — tag
byte 3, no argument fields. -/
def claimBondInstruction.getInstruction
    (programId bondAccount buyer quoteTokenSource sellerTokenAccount
      tokenProgram : PublicKey) : TransactionInstruction :=
  { programId,
    keys := [bondAccount, buyer, quoteTokenSource, sellerTokenAccount,
      tokenProgram],
    data := [3] }

/-- Modelled from the spec: `claimPoolRewardsInstruction.getInstruction` —
tag byte 4, no argument fields. -/
def claimPoolRewardsInstruction.getInstruction
    (programId stakePoolAccount owner rewardsDestination centralKey mint
      tokenProgram : PublicKey) : TransactionInstruction :=
  { programId,
    keys := [stakePoolAccount, owner, rewardsDestination, centralKey, mint,
      tokenProgram],
    data := [4] }

/-- Modelled from the spec: `claimRewardsInstruction.getInstruction` — tag
byte 5, no argument fields. -/
def claimRewardsInstruction.getInstruction
    (programId stakePool stakeAccount owner rewardsDestination centralKey
      mint tokenProgram : PublicKey) : TransactionInstruction :=
  { programId,
    keys := [stakePool, stakeAccount, owner, rewardsDestination, centralKey,
      mint, tokenProgram],
    data := [5] }

/-- Modelled from the spec: `closeStakeAccountInstruction.getInstruction` —
tag byte 6, no argument fields. -/
def closeStakeAccountInstruction.getInstruction
    (programId stakeAccount owner : PublicKey) : TransactionInstruction :=
  { programId, keys := [stakeAccount, owner], data := [6] }

/-- Modelled from the spec: `closeStakePoolInstruction.getInstruction` —
tag byte 7, no argument fields. -/
def closeStakePoolInstruction.getInstruction
    (programId stakePoolAccount owner : PublicKey) : TransactionInstruction :=
  { programId, keys := [stakePoolAccount, owner], data := [7] }

/-- Modelled from the spec: `crankInstruction.getInstruction` — tag byte 8,
no argument fields. -/
def crankInstruction.getInstruction
    (programId stakePoolAccount centralKey : PublicKey) :
    TransactionInstruction :=
  { programId, keys := [stakePoolAccount, centralKey], data := [8] }

/-- The tag byte of the create-bond instruction in the modelled layout. -/
def createBondTag : Nat := 9

/-- The argument fields of the create-bond instruction, in the order the
binding packs them (bindings.ts lines 302-312). -/
structure CreateBondFields where
  buyer : PublicKey
  totalAmountSold : Nat
  totalQuoteAmount : Nat
  quoteMint : PublicKey
  sellerTokenAccount : PublicKey
  unlockStartDate : Nat
  unlockPeriod : Nat
  unlockAmount : Nat
  lastUnlockTime : Nat
  sellerIndex : Nat
deriving DecidableEq

/-- Modelled from the spec: `createBondInstruction.serialize` — the fixed
binary layout of the create-bond payload: the tag byte, the buyer's 32-byte
buffer, then each numeric field as 8 little-endian bytes and each key field
as its 32-byte buffer, in the order the binding packs them. -/
def createBondInstruction.serialize (f : CreateBondFields) : List Nat :=
  [createBondTag] ++ (f.buyer.toBuffer ++ (u64le f.totalAmountSold ++
    (u64le f.totalQuoteAmount ++ (f.quoteMint.toBuffer ++
    (f.sellerTokenAccount.toBuffer ++ (u64le f.unlockStartDate ++
    (u64le f.unlockPeriod ++ (u64le f.unlockAmount ++
    (u64le f.lastUnlockTime ++ u64le f.sellerIndex)))))))))

/-- Modelled from the spec: `createBondInstruction.getInstruction`. -/
def createBondInstruction.getInstruction (f : CreateBondFields)
    (programId seller bondAccount stakePool systemProgram feePayer :
      PublicKey) : TransactionInstruction :=
  { programId,
    keys := [seller, bondAccount, stakePool, systemProgram, feePayer],
    data := createBondInstruction.serialize f }

/-- Modelled from the spec: `createCentralStateInstruction.getInstruction` —
tag byte 10, then the daily inflation and the authority's buffer. -/
def createCentralStateInstruction.getInstruction (dailyInflation : Nat)
    (authority : PublicKey)
    (programId centralKey systemProgram feePayer mint : PublicKey) :
    TransactionInstruction :=
  { programId, keys := [centralKey, systemProgram, feePayer, mint],
    data := 10 :: (u64le dailyInflation ++ authority.toBuffer) }

/-- Modelled from the spec: `createStakeAccountInstruction.getInstruction` —
tag byte 11, then the nonce byte and the owner's buffer. -/
def createStakeAccountInstruction.getInstruction (nonce : Nat)
    (owner : PublicKey)
    (programId stakeAccount systemProgram stakePool feePayer : PublicKey) :
    TransactionInstruction :=
  { programId, keys := [stakeAccount, systemProgram, stakePool, feePayer],
    data := 11 :: nonce :: owner.toBuffer }

/-- Modelled from the spec: `createStakePoolInstruction.getInstruction` —
tag byte 12, then the nonce, name, owner, minimum stake amount and
destination fields. -/
def createStakePoolInstruction.getInstruction (nonce : Nat) (name : String)
    (owner : PublicKey) (minimumStakeAmount : Nat) (destination : PublicKey)
    (programId stakePool systemProgram feePayer vault : PublicKey) :
    TransactionInstruction :=
  { programId, keys := [stakePool, systemProgram, feePayer, vault],
    data := 12 :: nonce :: (strBytes name ++ owner.toBuffer ++
      u64le minimumStakeAmount ++ destination.toBuffer) }

/-- Modelled from the spec: `signBondInstruction.getInstruction` — tag
byte 13, then the seller index as a 64-bit field. -/
def signBondInstruction.getInstruction (sellerIndex : Nat)
    (programId seller bondAccount : PublicKey) : TransactionInstruction :=
  { programId, keys := [seller, bondAccount],
    data := 13 :: u64le sellerIndex }

/-- Modelled from the spec: `stakeInstruction.getInstruction` — tag byte 14,
then the amount as a 64-bit field. -/
def stakeInstruction.getInstruction (amount : Nat)
    (programId stakeAccount stakePool owner sourceToken tokenProgram vault :
      PublicKey) : TransactionInstruction :=
  { programId,
    keys := [stakeAccount, stakePool, owner, sourceToken, tokenProgram,
      vault],
    data := 14 :: u64le amount }

/-- Modelled from the spec: `unlockBondTokensInstruction.getInstruction` —
tag byte 15, no argument fields. -/
def unlockBondTokensInstruction.getInstruction
    (programId bondAccount owner mint destinationToken centralKey
      tokenProgram : PublicKey) : TransactionInstruction :=
  { programId,
    keys := [bondAccount, owner, mint, destinationToken, centralKey,
      tokenProgram],
    data := [15] }

/-- Modelled from the spec: `unstakeInstruction.getInstruction` — tag
byte 16, then the amount as a 64-bit field. -/
def unstakeInstruction.getInstruction (amount : Nat)
    (programId stakeAccount stakePool owner destinationToken tokenProgram
      vault : PublicKey) : TransactionInstruction :=
  { programId,
    keys := [stakeAccount, stakePool, owner, destinationToken, tokenProgram,
      vault],
    data := 16 :: u64le amount }

/-- Modelled from the spec: `adminMintInstruction.getInstruction` — tag
byte 17, then the amount as a 64-bit field. -/
def adminMintInstruction.getInstruction (amount : Nat)
    (programId authority mint destinationToken centralKey tokenProgram :
      PublicKey) : TransactionInstruction :=
  { programId,
    keys := [authority, mint, destinationToken, centralKey, tokenProgram],
    data := 17 :: u64le amount }

/-- Modelled from the spec: `Token.createAssociatedTokenAccountInstruction`
— the external instruction creating an associated token account. -/
def Token.createAssociatedTokenAccountInstruction
    (associatedProgramId tokenProgramId mint associatedAccount owner
      feePayer : PublicKey) : TransactionInstruction :=
  { programId := associatedProgramId,
    keys := [feePayer, associatedAccount, owner, mint,
      SystemProgram.programId, tokenProgramId],
    data := [] }

/-- `changeInflation` (bindings.ts lines 37-50): read the central state and
build the change-inflation instruction. The `connection` argument of the
source becomes the `RpcM` remote state. -/
def changeInflation (newInflation : Nat) (programId : PublicKey) :
    RpcM TransactionInstruction :=
  fun s =>
    let centralKey := (CentralState.getKey programId).1
    await (CentralState.retrieve s centralKey) fun centralState =>
      .ok (changeInflationInstruction.getInstruction newInflation programId
        centralKey centralState.authority, s)

/-- `changePoolMinimum` (bindings.ts lines 60-73). -/
def changePoolMinimum (stakePoolKey : PublicKey) (newMinimum : Nat)
    (programId : PublicKey) : RpcM TransactionInstruction :=
  fun s =>
    await (StakePool.retrieve s stakePoolKey) fun stakePool =>
      .ok (changePoolMinimumInstruction.getInstruction newMinimum programId
        stakePoolKey stakePool.owner, s)

/-- `claimBondRewards` (bindings.ts lines 83-106): read the central state
and the bond account, then build the claim-bond-rewards instruction. -/
def claimBondRewards (bondAccount rewardsDestination programId : PublicKey) :
    RpcM TransactionInstruction :=
  fun s =>
    let centralKey := (CentralState.getKey programId).1
    await (CentralState.retrieve s centralKey) fun centralState =>
      await (BondAccount.retrieve s bondAccount) fun bond =>
        .ok (claimBondRewardsInstruction.getInstruction programId
          bond.stakePool bondAccount bond.owner rewardsDestination centralKey
          centralState.tokenMint TOKEN_PROGRAM_ID, s)

/-- `claimBond` (bindings.ts lines 117-136). -/
def claimBond (bondAccount buyer quoteTokenSource programId : PublicKey) :
    RpcM TransactionInstruction :=
  fun s =>
    await (BondAccount.retrieve s bondAccount) fun bond =>
      .ok (claimBondInstruction.getInstruction programId bondAccount buyer
        quoteTokenSource bond.sellerTokenAccount TOKEN_PROGRAM_ID, s)

/-- `claimPoolRewards` (bindings.ts lines 145-164): read the central state
and the stake pool and build the claim-pool-rewards instruction — but the
source has no `return` statement for it, so the call resolves with no value
(`none` here); the constructed instruction is discarded. -/
def claimPoolRewards
    (stakePoolAccount rewardsDestination programId : PublicKey) :
    RpcM (Option TransactionInstruction) :=
  fun s =>
    let centralKey := (CentralState.getKey programId).1
    await (CentralState.retrieve s centralKey) fun centralState =>
      await (StakePool.retrieve s stakePoolAccount) fun stakePool =>
        let _ix := claimPoolRewardsInstruction.getInstruction programId
          stakePoolAccount stakePool.owner rewardsDestination centralKey
          centralState.tokenMint TOKEN_PROGRAM_ID
        .ok (none, s)

/-- `claimRewards` (bindings.ts lines 174-196). -/
def claimRewards (stakeAccount rewardsDestination programId : PublicKey) :
    RpcM TransactionInstruction :=
  fun s =>
    await (StakeAccount.retrieve s stakeAccount) fun stake =>
      let centralKey := (CentralState.getKey programId).1
      await (CentralState.retrieve s centralKey) fun centralState =>
        .ok (claimRewardsInstruction.getInstruction programId stake.stakePool
          stakeAccount stake.owner rewardsDestination centralKey
          centralState.tokenMint TOKEN_PROGRAM_ID, s)

/-- `closeStakeAccount` (bindings.ts lines 205-219). -/
def closeStakeAccount (stakeAccount programId : PublicKey) :
    RpcM TransactionInstruction :=
  fun s =>
    await (StakeAccount.retrieve s stakeAccount) fun stake =>
      .ok (closeStakeAccountInstruction.getInstruction programId stakeAccount
        stake.owner, s)

/-- `closeStakePool` (bindings.ts lines 228-242). -/
def closeStakePool (stakePoolAccount programId : PublicKey) :
    RpcM TransactionInstruction :=
  fun s =>
    await (StakePool.retrieve s stakePoolAccount) fun stakePool =>
      .ok (closeStakePoolInstruction.getInstruction programId
        stakePoolAccount stakePool.owner, s)

/-- `crank` (bindings.ts lines 250-262): no remote read — only the
deterministic central-state derivation and the instruction build. -/
def crank (stakePoolAccount programId : PublicKey) :
    RpcM TransactionInstruction :=
  fun s =>
    let centralKey := (CentralState.getKey programId).1
    .ok (crankInstruction.getInstruction programId stakePoolAccount
      centralKey, s)

/-- `createBond` (bindings.ts lines 281-323): derive the bond account from
the buyer and total amount, pack the ten argument fields, and build the
create-bond instruction. No remote read occurs. -/
def createBond (seller buyer : PublicKey)
    (totalAmountSold totalQuoteAmount : Nat)
    (quoteMint sellerTokenAccount : PublicKey)
    (unlockStartDate unlockPeriod unlockAmount lastUnlockTime : Nat)
    (stakePool : PublicKey) (sellerIndex : Nat) (programId : PublicKey) :
    RpcM TransactionInstruction :=
  fun s =>
    let bondAccount := (BondAccount.getKey programId buyer totalAmountSold).1
    .ok (createBondInstruction.getInstruction
      { buyer, totalAmountSold, totalQuoteAmount, quoteMint,
        sellerTokenAccount, unlockStartDate, unlockPeriod, unlockAmount,
        lastUnlockTime, sellerIndex }
      programId seller bondAccount stakePool SystemProgram.programId seller,
      s)

/-- `createCentralState` (bindings.ts lines 334-355). -/
def createCentralState (dailyInflation : Nat)
    (authority feePayer mint programId : PublicKey) :
    RpcM TransactionInstruction :=
  fun s =>
    let centralKey := (CentralState.getKey programId).1
    .ok (createCentralStateInstruction.getInstruction dailyInflation
      authority programId centralKey SystemProgram.programId feePayer mint,
      s)

/-- `createStakeAccount` (bindings.ts lines 357-381). -/
def createStakeAccount (stakePool owner feePayer programId : PublicKey) :
    RpcM TransactionInstruction :=
  fun s =>
    let kn := StakeAccount.getKey programId owner stakePool
    .ok (createStakeAccountInstruction.getInstruction kn.2 owner programId
      kn.1 SystemProgram.programId stakePool feePayer, s)

/-- `createStakePool` (bindings.ts lines 383-431): derive the pool and
central keys, read the central state, derive the vault, and return the
vault-creation instruction followed by the create-stake-pool instruction. -/
def createStakePool (name : String) (owner destination : PublicKey)
    (minimumStakeAmount : Nat) (feePayer programId : PublicKey) :
    RpcM (List TransactionInstruction) :=
  fun s =>
    let kn := StakePool.getKey programId owner destination
    let centralKey := (CentralState.getKey programId).1
    await (CentralState.retrieve s centralKey) fun centralState =>
      let vault := Token.getAssociatedTokenAddress ASSOCIATED_TOKEN_PROGRAM_ID
        TOKEN_PROGRAM_ID centralState.tokenMint kn.1
      let createVaultIx := Token.createAssociatedTokenAccountInstruction
        ASSOCIATED_TOKEN_PROGRAM_ID TOKEN_PROGRAM_ID centralState.tokenMint
        vault kn.1 feePayer
      .ok ([createVaultIx,
        createStakePoolInstruction.getInstruction kn.2 name owner
          minimumStakeAmount destination programId kn.1
          SystemProgram.programId feePayer vault], s)

/-- `signBond` (bindings.ts lines 433-444): no remote read. -/
def signBond (sellerIndex : Nat) (seller bondAccount programId : PublicKey) :
    RpcM TransactionInstruction :=
  fun s =>
    .ok (signBondInstruction.getInstruction sellerIndex programId seller
      bondAccount, s)

/-- `stake` (bindings.ts lines 446-467): read the stake account, then the
pool it names, and build the stake instruction. -/
def stake (stakeAccount sourceToken : PublicKey) (amount : Nat)
    (programId : PublicKey) : RpcM TransactionInstruction :=
  fun s =>
    await (StakeAccount.retrieve s stakeAccount) fun stk =>
      await (StakePool.retrieve s stk.stakePool) fun stakePool =>
        .ok (stakeInstruction.getInstruction amount programId stakeAccount
          stk.stakePool stk.owner sourceToken TOKEN_PROGRAM_ID
          stakePool.vault, s)

/-- `unlockBondTokens` (bindings.ts lines 469-490). -/
def unlockBondTokens (bondAccount destinationToken programId : PublicKey) :
    RpcM TransactionInstruction :=
  fun s =>
    let centralKey := (CentralState.getKey programId).1
    await (CentralState.retrieve s centralKey) fun centralState =>
      await (BondAccount.retrieve s bondAccount) fun bond =>
        .ok (unlockBondTokensInstruction.getInstruction programId bondAccount
          bond.owner centralState.tokenMint destinationToken centralKey
          TOKEN_PROGRAM_ID, s)

/-- `unstake` (bindings.ts lines 492-515). -/
def unstake (stakeAccount destinationToken : PublicKey) (amount : Nat)
    (programId : PublicKey) : RpcM TransactionInstruction :=
  fun s =>
    await (StakeAccount.retrieve s stakeAccount) fun stk =>
      await (StakePool.retrieve s stk.stakePool) fun stakePool =>
        .ok (unstakeInstruction.getInstruction amount programId stakeAccount
          stk.stakePool stk.owner destinationToken TOKEN_PROGRAM_ID
          stakePool.vault, s)

/-- `adminMint` (bindings.ts lines 517-538). -/
def adminMint (amount : Nat) (destinationToken programId : PublicKey) :
    RpcM TransactionInstruction :=
  fun s =>
    let centralKey := (CentralState.getKey programId).1
    await (CentralState.retrieve s centralKey) fun centralState =>
      .ok (adminMintInstruction.getInstruction amount programId
        centralState.authority centralState.tokenMint destinationToken
        centralKey TOKEN_PROGRAM_ID, s)

/-- Take `n` bytes off the front of a byte list, or fail when fewer remain. -/
def readBytes (n : Nat) (bs : List Nat) : Option (List Nat × List Nat) :=
  if n ≤ bs.length then some (bs.take n, bs.drop n) else none

/-- Modelled from the spec: the decoder of the create-bond payload — read
the fields back in the order `createBondInstruction.serialize` packs them,
checking the tag byte and that no bytes remain. -/
def decodeCreateBond (bs : List Nat) : Option CreateBondFields :=
  Option.bind (readBytes 1 bs) fun p0 =>
  Option.bind (readBytes 32 p0.2) fun p1 =>
  Option.bind (readBytes 8 p1.2) fun p2 =>
  Option.bind (readBytes 8 p2.2) fun p3 =>
  Option.bind (readBytes 32 p3.2) fun p4 =>
  Option.bind (readBytes 32 p4.2) fun p5 =>
  Option.bind (readBytes 8 p5.2) fun p6 =>
  Option.bind (readBytes 8 p6.2) fun p7 =>
  Option.bind (readBytes 8 p7.2) fun p8 =>
  Option.bind (readBytes 8 p8.2) fun p9 =>
  Option.bind (readBytes 8 p9.2) fun p10 =>
  if p0.1 = [createBondTag] ∧ p10.2 = [] then
    some { buyer := ⟨p1.1⟩, totalAmountSold := leToNat p2.1,
           totalQuoteAmount := leToNat p3.1, quoteMint := ⟨p4.1⟩,
           sellerTokenAccount := ⟨p5.1⟩, unlockStartDate := leToNat p6.1,
           unlockPeriod := leToNat p7.1, unlockAmount := leToNat p8.1,
           lastUnlockTime := leToNat p9.1, sellerIndex := leToNat p10.1 }
  else none

/-- Failing with exactly an error some remote read of the state raises. -/
def RaisesError (s : RemoteState) (e : String) : Prop :=
  (∃ k, s.centralState k = .error e) ∨ (∃ k, s.stakePool k = .error e) ∨
  (∃ k, s.stakeAccount k = .error e) ∨ (∃ k, s.bondAccount k = .error e) ∨
  s.programAccounts = .error e

/-- An operation fails only by passing a remote read's error through. -/
def FailsOnlyWithReadErrors {α : Type} (m : RpcM α) : Prop :=
  ∀ s e, m s = .error e → RaisesError s e

/-- An operation leaves the remote state it ran on unchanged. -/
def PreservesState {α : Type} (m : RpcM α) : Prop :=
  ∀ s a s2, m s = .ok (a, s2) → s2 = s

/-- A concrete 32-byte key, for evaluating the operations. -/
def demoKey (b : Nat) : PublicKey :=
  ⟨List.replicate 32 b⟩

/-- Concrete decoded central state. -/
def demoCentral : CentralStateData :=
  ⟨demoKey 11, demoKey 12, 1000⟩

/-- Concrete decoded stake pool. -/
def demoPool : StakePoolData :=
  ⟨demoKey 13, demoKey 14⟩

/-- Concrete decoded stake account. -/
def demoStakeAcct : StakeAccountData :=
  ⟨demoKey 13, demoKey 15⟩

/-- Concrete decoded bond account. -/
def demoBond : BondAccountData :=
  ⟨demoKey 13, demoKey 15, demoKey 16⟩

/-- A remote state in which every read succeeds. -/
def demoState : RemoteState where
  centralState := fun _ => .ok demoCentral
  stakePool := fun _ => .ok demoPool
  stakeAccount := fun _ => .ok demoStakeAcct
  bondAccount := fun _ => .ok demoBond
  programAccounts := .ok []

/-- A remote state in which every read raises the same transport error. -/
def errState : RemoteState where
  centralState := fun _ => .error "remote read failed"
  stakePool := fun _ => .error "remote read failed"
  stakeAccount := fun _ => .error "remote read failed"
  bondAccount := fun _ => .error "remote read failed"
  programAccounts := .error "remote read failed"

theorem await_ok {α β : Type} {r : Except String α}
    {f : α → Except String β} {b : β} (h : await r f = .ok b) :
    ∃ v, r = .ok v ∧ f v = .ok b := by
  cases r with
  | error e => exact absurd h (by simp [await])
  | ok v => exact ⟨v, rfl, h⟩

theorem await_error {α β : Type} {r : Except String α}
    {f : α → Except String β} {e : String} (h : await r f = .error e) :
    r = .error e ∨ ∃ v, r = .ok v ∧ f v = .error e := by
  cases r with
  | error e2 =>
    left
    have he : e2 = e := by simpa [await] using h
    rw [he]
  | ok v => exact Or.inr ⟨v, rfl, h⟩

theorem natToLE_length (k n : Nat) : (natToLE k n).length = k := by
  induction k generalizing n with
  | zero => rfl
  | succ k ih => simp [natToLE, ih]

theorem leToNat_natToLE (k n : Nat) (h : n < 256 ^ k) :
    leToNat (natToLE k n) = n := by
  induction k generalizing n with
  | zero =>
    simp only [pow_zero, Nat.lt_one_iff] at h
    simp [natToLE, leToNat, h]
  | succ k ih =>
    have hdiv : n / 256 < 256 ^ k := by
      rw [Nat.div_lt_iff_lt_mul (by norm_num)]
      calc n < 256 ^ (k + 1) := h
        _ = 256 ^ k * 256 := pow_succ 256 k
    simp only [natToLE, leToNat, ih (n / 256) hdiv]
    exact Nat.mod_add_div n 256

theorem leToNat_u64le (n : Nat) (h : n < 2 ^ 64) : leToNat (u64le n) = n :=
  leToNat_natToLE 8 n (by norm_num at h ⊢; omega)

theorem readBytes_append {n : Nat} {xs ys : List Nat}
    (h : xs.length = n) : readBytes n (xs ++ ys) = some (xs, ys) := by
  subst h
  simp [readBytes, List.take_left, List.drop_left]

theorem readBytes_exact {n : Nat} {xs : List Nat} (h : xs.length = n) :
    readBytes n xs = some (xs, []) := by
  have h2 : readBytes n (xs ++ []) = some (xs, []) := readBytes_append h
  simpa using h2

theorem publicKey_eta (k : PublicKey) : (⟨k.bytes⟩ : PublicKey) = k := rfl

theorem u64le_length (n : Nat) : (u64le n).length = 8 :=
  natToLE_length 8 n

theorem decodeCreateBond_serialize (f : CreateBondFields)
    (hb : f.buyer.bytes.length = 32) (hq : f.quoteMint.bytes.length = 32)
    (hst : f.sellerTokenAccount.bytes.length = 32)
    (h1 : f.totalAmountSold < 2 ^ 64) (h2 : f.totalQuoteAmount < 2 ^ 64)
    (h3 : f.unlockStartDate < 2 ^ 64) (h4 : f.unlockPeriod < 2 ^ 64)
    (h5 : f.unlockAmount < 2 ^ 64) (h6 : f.lastUnlockTime < 2 ^ 64)
    (h7 : f.sellerIndex < 2 ^ 64) :
    decodeCreateBond (createBondInstruction.serialize f) = some f := by
  have hb8 : f.buyer.toBuffer.length = 32 := hb
  have hq8 : f.quoteMint.toBuffer.length = 32 := hq
  have hst8 : f.sellerTokenAccount.toBuffer.length = 32 := hst
  simp only [decodeCreateBond, createBondInstruction.serialize]
  rw [readBytes_append (show ([createBondTag] : List Nat).length = 1 from rfl)]
  simp only [Option.bind]
  rw [readBytes_append hb8]
  simp only [Option.bind]
  rw [readBytes_append (u64le_length _)]
  simp only [Option.bind]
  rw [readBytes_append (u64le_length _)]
  simp only [Option.bind]
  rw [readBytes_append hq8]
  simp only [Option.bind]
  rw [readBytes_append hst8]
  simp only [Option.bind]
  rw [readBytes_append (u64le_length _)]
  simp only [Option.bind]
  rw [readBytes_append (u64le_length _)]
  simp only [Option.bind]
  rw [readBytes_append (u64le_length _)]
  simp only [Option.bind]
  rw [readBytes_append (u64le_length _)]
  simp only [Option.bind]
  rw [readBytes_exact (u64le_length _)]
  simp only [Option.bind]
  simp [leToNat_u64le _ h1, leToNat_u64le _ h2, leToNat_u64le _ h3,
    leToNat_u64le _ h4, leToNat_u64le _ h5, leToNat_u64le _ h6,
    leToNat_u64le _ h7, publicKey_eta, PublicKey.toBuffer]

theorem RemoteState.ext_reads {s1 s2 : RemoteState}
    (hc : ∀ k, s1.centralState k = s2.centralState k)
    (hp : ∀ k, s1.stakePool k = s2.stakePool k)
    (hsa : ∀ k, s1.stakeAccount k = s2.stakeAccount k)
    (hbd : ∀ k, s1.bondAccount k = s2.bondAccount k)
    (hpa : s1.programAccounts = s2.programAccounts) : s1 = s2 := by
  cases s1
  cases s2
  congr 1
  · exact funext hc
  · exact funext hp
  · exact funext hsa
  · exact funext hbd

theorem raises_await_central {β : Type} {s : RemoteState} {k : PublicKey}
    {f : CentralStateData → Except String β} {e : String}
    (h : await (s.centralState k) f = .error e)
    (hf : ∀ v, f v = .error e → RaisesError s e) : RaisesError s e := by
  rcases await_error h with h1 | ⟨v, _, h2⟩
  · exact Or.inl ⟨k, h1⟩
  · exact hf v h2

theorem raises_await_pool {β : Type} {s : RemoteState} {k : PublicKey}
    {f : StakePoolData → Except String β} {e : String}
    (h : await (s.stakePool k) f = .error e)
    (hf : ∀ v, f v = .error e → RaisesError s e) : RaisesError s e := by
  rcases await_error h with h1 | ⟨v, _, h2⟩
  · exact Or.inr (Or.inl ⟨k, h1⟩)
  · exact hf v h2

theorem raises_await_stakeAcct {β : Type} {s : RemoteState} {k : PublicKey}
    {f : StakeAccountData → Except String β} {e : String}
    (h : await (s.stakeAccount k) f = .error e)
    (hf : ∀ v, f v = .error e → RaisesError s e) : RaisesError s e := by
  rcases await_error h with h1 | ⟨v, _, h2⟩
  · exact Or.inr (Or.inr (Or.inl ⟨k, h1⟩))
  · exact hf v h2

theorem raises_await_bond {β : Type} {s : RemoteState} {k : PublicKey}
    {f : BondAccountData → Except String β} {e : String}
    (h : await (s.bondAccount k) f = .error e)
    (hf : ∀ v, f v = .error e → RaisesError s e) : RaisesError s e := by
  rcases await_error h with h1 | ⟨v, _, h2⟩
  · exact Or.inr (Or.inr (Or.inr (Or.inl ⟨k, h1⟩)))
  · exact hf v h2

theorem raises_await_scan {β : Type} {s : RemoteState}
    {f : List ProgramAccount → Except String β} {e : String}
    (h : await s.programAccounts f = .error e)
    (hf : ∀ v, f v = .error e → RaisesError s e) : RaisesError s e := by
  rcases await_error h with h1 | ⟨v, _, h2⟩
  · exact Or.inr (Or.inr (Or.inr (Or.inr h1)))
  · exact hf v h2

theorem await_preserves {α β : Type} {r : Except String α}
    {f : α → Except String (β × RemoteState)} {a : β} {s s2 : RemoteState}
    (h : await r f = .ok (a, s2))
    (hf : ∀ v, f v = .ok (a, s2) → s2 = s) : s2 = s := by
  rcases await_ok h with ⟨v, _, h2⟩
  exact hf v h2

theorem ok_state_eq {β : Type} {x a : β} {s s2 : RemoteState}
    (h : (Except.ok (x, s) : Except String (β × RemoteState)) =
      .ok (a, s2)) : s2 = s := by
  injection h with h2
  injection h2 with _ h3
  exact h3.symm

/-- C2: for every owner address, the filter list built by `getStakeAccounts`
consists of exactly two byte-pattern filters — the stake-account
discriminator value 4 at byte offset 0 and the owner's canonical address
encoding at byte offset 1. -/
theorem getStakeAccounts_filter_shape (owner : PublicKey) :
    getStakeAccountsFilters owner =
      [{ offset := 0, bytes := toString stakeAccountTag },
       { offset := 1, bytes := owner.toBase58 }] := rfl

/-- C3: the bond queries filter by the spec's bond discriminator values —
`getBondAccounts` on value 6 (active/signed) at offset 0 plus the owner's
canonical encoding at offset 1, `getAllInactiveBonds` on value 5 at
offset 0, and `getAllActiveBonds` on value 6 at offset 0. -/
theorem bond_query_filter_shape (owner : PublicKey) :
    getBondAccountsFilters owner =
      [{ offset := 0, bytes := toString activeBondTag },
       { offset := 1, bytes := owner.toBase58 }] ∧
    getAllInactiveBondsFilters =
      [{ offset := 0, bytes := toString inactiveBondTag }] ∧
    getAllActiveBondsFilters =
      [{ offset := 0, bytes := toString activeBondTag }] :=
  ⟨rfl, rfl, rfl⟩

/-- C4: the stake-pool queries filter by the spec's stake-pool
discriminator values — `getStakePools` on value 2 (active) at offset 0 plus
the owner's canonical encoding at the owner-field offset 32 (the source's
sum 1+1+2+4+8+8+8), and `getAllInactiveStakePools` on value 3 at offset 0. -/
theorem stakePool_query_filter_shape (owner : PublicKey) :
    getStakePoolsFilters owner =
      [{ offset := 0, bytes := toString activeStakePoolTag },
       { offset := 32, bytes := owner.toBase58 }] ∧
    1 + 1 + 2 + 4 + 8 + 8 + 8 = 32 ∧
    getAllInactiveStakePoolsFilters =
      [{ offset := 0, bytes := toString inactiveStakePoolTag }] :=
  ⟨rfl, rfl, rfl⟩

/-- C9: `getAllStakePools` builds exactly one byte-pattern filter, the
active-pool discriminator value 2 at offset 0; under the modelled scan
semantics no account carrying the inactive discriminator 3 ever passes that
filter list, while such an account does pass the filter list of the
separate `getAllInactiveStakePools` operation. -/
theorem getAllStakePools_active_only :
    getAllStakePoolsFilters =
      [{ offset := 0, bytes := toString activeStakePoolTag }] ∧
    (∀ a : ProgramAccount, a.discriminator = inactiveStakePoolTag →
      matchesFilters a getAllStakePoolsFilters = false) ∧
    (∀ a : ProgramAccount, a.discriminator = inactiveStakePoolTag →
      matchesFilters a getAllInactiveStakePoolsFilters = true) := by
  refine ⟨rfl, ?_, ?_⟩ <;>
    · intro a ha
      simp [matchesFilters, matchesFilter, getAllStakePoolsFilters,
        getAllInactiveStakePoolsFilters, ha, inactiveStakePoolTag]
      decide

/-- C10: `crank` performs no remote account read — on every remote state it
returns, unchanged state aside, the instruction determined by its two
arguments alone through the deterministic central-state derivation. -/
theorem crank_state_independent (stakePoolAccount programId : PublicKey)
    (s : RemoteState) :
    crank stakePoolAccount programId s =
      .ok (crankInstruction.getInstruction programId stakePoolAccount
        (CentralState.getKey programId).1, s) := rfl

/-- C1 (code behaviour at the failing input): whenever the central state
and the stake pool both decode successfully, `claimPoolRewards` resolves
with no value — the source constructs the claim-pool-rewards instruction
but never returns it — instead of resolving with the instruction
descriptor. -/
theorem claimPoolRewards_no_return
    (stakePoolAccount rewardsDestination programId : PublicKey)
    (s : RemoteState) (c : CentralStateData) (pool : StakePoolData)
    (hc : s.centralState (CentralState.getKey programId).1 = .ok c)
    (hp : s.stakePool stakePoolAccount = .ok pool) :
    claimPoolRewards stakePoolAccount rewardsDestination programId s =
      .ok (none, s) := by
  simp only [claimPoolRewards, CentralState.retrieve, StakePool.retrieve,
    hc, hp, await]

/-- C1 witness: a concrete run in which both decodes succeed and the call
still produces no instruction descriptor. -/
theorem claimPoolRewards_no_return_witness :
    claimPoolRewards (demoKey 3) (demoKey 4) (demoKey 5) demoState =
      .ok (none, demoState) :=
  claimPoolRewards_no_return (demoKey 3) (demoKey 4) (demoKey 5) demoState
    demoCentral demoPool rfl rfl

/-- C5: every builder and every query operation, when it fails, fails with
exactly an error raised by a remote read or decode step of the state it ran
on — no operation catches, retries, translates or wraps such an error. -/
theorem errors_pass_through :
    (∀ n p, FailsOnlyWithReadErrors (changeInflation n p)) ∧
    (∀ k n p, FailsOnlyWithReadErrors (changePoolMinimum k n p)) ∧
    (∀ b d p, FailsOnlyWithReadErrors (claimBondRewards b d p)) ∧
    (∀ b u q p, FailsOnlyWithReadErrors (claimBond b u q p)) ∧
    (∀ a d p, FailsOnlyWithReadErrors (claimPoolRewards a d p)) ∧
    (∀ a d p, FailsOnlyWithReadErrors (claimRewards a d p)) ∧
    (∀ a p, FailsOnlyWithReadErrors (closeStakeAccount a p)) ∧
    (∀ a p, FailsOnlyWithReadErrors (closeStakePool a p)) ∧
    (∀ a p, FailsOnlyWithReadErrors (crank a p)) ∧
    (∀ sl b t1 t2 q st u1 u2 u3 u4 sp i p,
      FailsOnlyWithReadErrors
        (createBond sl b t1 t2 q st u1 u2 u3 u4 sp i p)) ∧
    (∀ d a fp m p, FailsOnlyWithReadErrors (createCentralState d a fp m p)) ∧
    (∀ sp o fp p, FailsOnlyWithReadErrors (createStakeAccount sp o fp p)) ∧
    (∀ nm o d m fp p,
      FailsOnlyWithReadErrors (createStakePool nm o d m fp p)) ∧
    (∀ i a b p, FailsOnlyWithReadErrors (signBond i a b p)) ∧
    (∀ a t n p, FailsOnlyWithReadErrors (stake a t n p)) ∧
    (∀ b d p, FailsOnlyWithReadErrors (unlockBondTokens b d p)) ∧
    (∀ a d n p, FailsOnlyWithReadErrors (unstake a d n p)) ∧
    (∀ n d p, FailsOnlyWithReadErrors (adminMint n d p)) ∧
    (∀ o, FailsOnlyWithReadErrors (getStakeAccounts o)) ∧
    (∀ o, FailsOnlyWithReadErrors (getStakePools o)) ∧
    (∀ o, FailsOnlyWithReadErrors (getBondAccounts o)) ∧
    FailsOnlyWithReadErrors getAllStakePools ∧
    FailsOnlyWithReadErrors getAllInactiveStakePools ∧
    FailsOnlyWithReadErrors getAllInactiveBonds ∧
    FailsOnlyWithReadErrors getAllActiveBonds :=
  ⟨fun _ _ _ _ h => raises_await_central h fun _ hv => Except.noConfusion hv,
   fun _ _ _ _ _ h => raises_await_pool h fun _ hv => Except.noConfusion hv,
   fun _ _ _ _ _ h => raises_await_central h fun _ hv =>
     raises_await_bond hv fun _ hw => Except.noConfusion hw,
   fun _ _ _ _ _ _ h => raises_await_bond h fun _ hv =>
     Except.noConfusion hv,
   fun _ _ _ _ _ h => raises_await_central h fun _ hv =>
     raises_await_pool hv fun _ hw => Except.noConfusion hw,
   fun _ _ _ _ _ h => raises_await_stakeAcct h fun _ hv =>
     raises_await_central hv fun _ hw => Except.noConfusion hw,
   fun _ _ _ _ h => raises_await_stakeAcct h fun _ hv =>
     Except.noConfusion hv,
   fun _ _ _ _ h => raises_await_pool h fun _ hv => Except.noConfusion hv,
   fun _ _ _ _ h => Except.noConfusion h,
   fun _ _ _ _ _ _ _ _ _ _ _ _ _ _ _ h => Except.noConfusion h,
   fun _ _ _ _ _ _ _ h => Except.noConfusion h,
   fun _ _ _ _ _ _ h => Except.noConfusion h,
   fun _ _ _ _ _ _ _ _ h => raises_await_central h fun _ hv =>
     Except.noConfusion hv,
   fun _ _ _ _ _ _ h => Except.noConfusion h,
   fun _ _ _ _ _ _ h => raises_await_stakeAcct h fun _ hv =>
     raises_await_pool hv fun _ hw => Except.noConfusion hw,
   fun _ _ _ _ _ h => raises_await_central h fun _ hv =>
     raises_await_bond hv fun _ hw => Except.noConfusion hw,
   fun _ _ _ _ _ _ h => raises_await_stakeAcct h fun _ hv =>
     raises_await_pool hv fun _ hw => Except.noConfusion hw,
   fun _ _ _ _ _ h => raises_await_central h fun _ hv =>
     Except.noConfusion hv,
   fun _ _ _ h => raises_await_scan h fun _ hv => Except.noConfusion hv,
   fun _ _ _ h => raises_await_scan h fun _ hv => Except.noConfusion hv,
   fun _ _ _ h => raises_await_scan h fun _ hv => Except.noConfusion hv,
   fun _ _ h => raises_await_scan h fun _ hv => Except.noConfusion hv,
   fun _ _ h => raises_await_scan h fun _ hv => Except.noConfusion hv,
   fun _ _ h => raises_await_scan h fun _ hv => Except.noConfusion hv,
   fun _ _ h => raises_await_scan h fun _ hv => Except.noConfusion hv⟩

/-- C5 witness: a concrete failing run of `claimBondRewards` whose error is
exactly the transport error the remote state raises. -/
theorem errors_pass_through_witness :
    claimBondRewards (demoKey 3) (demoKey 4) (demoKey 5) errState =
      .error "remote read failed" ∧
    RaisesError errState "remote read failed" :=
  ⟨rfl, errors_pass_through.2.2.1 (demoKey 3) (demoKey 4) (demoKey 5)
    errState "remote read failed" rfl⟩

/-- C6: every builder is deterministic — two runs against remote states
returning the same result for every account read (and the same scan result)
produce identical outputs, for identical argument values. -/
theorem builders_deterministic (s1 s2 : RemoteState)
    (hc : ∀ k, s1.centralState k = s2.centralState k)
    (hp : ∀ k, s1.stakePool k = s2.stakePool k)
    (hsa : ∀ k, s1.stakeAccount k = s2.stakeAccount k)
    (hbd : ∀ k, s1.bondAccount k = s2.bondAccount k)
    (hpa : s1.programAccounts = s2.programAccounts) :
    (∀ n p, changeInflation n p s1 = changeInflation n p s2) ∧
    (∀ k n p, changePoolMinimum k n p s1 = changePoolMinimum k n p s2) ∧
    (∀ b d p, claimBondRewards b d p s1 = claimBondRewards b d p s2) ∧
    (∀ b u q p, claimBond b u q p s1 = claimBond b u q p s2) ∧
    (∀ a d p, claimPoolRewards a d p s1 = claimPoolRewards a d p s2) ∧
    (∀ a d p, claimRewards a d p s1 = claimRewards a d p s2) ∧
    (∀ a p, closeStakeAccount a p s1 = closeStakeAccount a p s2) ∧
    (∀ a p, closeStakePool a p s1 = closeStakePool a p s2) ∧
    (∀ a p, crank a p s1 = crank a p s2) ∧
    (∀ sl b t1 t2 q st u1 u2 u3 u4 sp i p,
      createBond sl b t1 t2 q st u1 u2 u3 u4 sp i p s1 =
        createBond sl b t1 t2 q st u1 u2 u3 u4 sp i p s2) ∧
    (∀ d a fp m p,
      createCentralState d a fp m p s1 = createCentralState d a fp m p s2) ∧
    (∀ sp o fp p,
      createStakeAccount sp o fp p s1 = createStakeAccount sp o fp p s2) ∧
    (∀ nm o d m fp p,
      createStakePool nm o d m fp p s1 = createStakePool nm o d m fp p s2) ∧
    (∀ i a b p, signBond i a b p s1 = signBond i a b p s2) ∧
    (∀ a t n p, stake a t n p s1 = stake a t n p s2) ∧
    (∀ b d p, unlockBondTokens b d p s1 = unlockBondTokens b d p s2) ∧
    (∀ a d n p, unstake a d n p s1 = unstake a d n p s2) ∧
    (∀ n d p, adminMint n d p s1 = adminMint n d p s2) := by
  obtain rfl := RemoteState.ext_reads hc hp hsa hbd hpa
  refine ⟨?_, ?_, ?_, ?_, ?_, ?_, ?_, ?_, ?_, ?_, ?_, ?_, ?_, ?_, ?_, ?_,
    ?_, ?_⟩ <;> (intros; rfl)

/-- C6 witness: the determinism statement applied to one concrete pair of
pointwise-equal remote states. -/
theorem builders_deterministic_witness :
    crank (demoKey 1) (demoKey 2) demoState =
      crank (demoKey 1) (demoKey 2) demoState :=
  (builders_deterministic demoState demoState (fun _ => rfl) (fun _ => rfl)
    (fun _ => rfl) (fun _ => rfl) rfl).2.2.2.2.2.2.2.2.1 (demoKey 1)
    (demoKey 2)

/-- C7: decoding the payload `createBond` produces recovers exactly the
original field values — buyer, amounts, quote mint, seller token account,
unlock schedule fields and seller index (keys being 32 bytes and numeric
fields below `2 ^ 64`, the width of their binary layout). -/
theorem createBond_roundtrip (seller buyer : PublicKey)
    (totalAmountSold totalQuoteAmount : Nat)
    (quoteMint sellerTokenAccount : PublicKey)
    (unlockStartDate unlockPeriod unlockAmount lastUnlockTime : Nat)
    (stakePool : PublicKey) (sellerIndex : Nat) (programId : PublicKey)
    (s : RemoteState) (ix : TransactionInstruction) (s2 : RemoteState)
    (hrun : createBond seller buyer totalAmountSold totalQuoteAmount
      quoteMint sellerTokenAccount unlockStartDate unlockPeriod unlockAmount
      lastUnlockTime stakePool sellerIndex programId s = .ok (ix, s2))
    (hb : buyer.bytes.length = 32) (hq : quoteMint.bytes.length = 32)
    (hst : sellerTokenAccount.bytes.length = 32)
    (h1 : totalAmountSold < 2 ^ 64) (h2 : totalQuoteAmount < 2 ^ 64)
    (h3 : unlockStartDate < 2 ^ 64) (h4 : unlockPeriod < 2 ^ 64)
    (h5 : unlockAmount < 2 ^ 64) (h6 : lastUnlockTime < 2 ^ 64)
    (h7 : sellerIndex < 2 ^ 64) :
    decodeCreateBond ix.data =
      some { buyer, totalAmountSold, totalQuoteAmount, quoteMint,
             sellerTokenAccount, unlockStartDate, unlockPeriod, unlockAmount,
             lastUnlockTime, sellerIndex } := by
  have hix : ix = createBondInstruction.getInstruction
      { buyer, totalAmountSold, totalQuoteAmount, quoteMint,
        sellerTokenAccount, unlockStartDate, unlockPeriod, unlockAmount,
        lastUnlockTime, sellerIndex }
      programId seller (BondAccount.getKey programId buyer totalAmountSold).1
      stakePool SystemProgram.programId seller := by
    have h := hrun
    simp only [createBond, Except.ok.injEq, Prod.mk.injEq] at h
    exact h.1.symm
  subst hix
  exact decodeCreateBond_serialize _ hb hq hst h1 h2 h3 h4 h5 h6 h7

/-- C7 witness: a concrete `createBond` run whose payload decodes back to
the original field values. -/
theorem createBond_roundtrip_witness :
    ∃ ix : TransactionInstruction,
      createBond (demoKey 20) (demoKey 21) 500 600 (demoKey 22) (demoKey 23)
        700 800 900 1000 (demoKey 24) 2 (demoKey 25) demoState =
        .ok (ix, demoState) ∧
      decodeCreateBond ix.data =
        some { buyer := demoKey 21, totalAmountSold := 500,
               totalQuoteAmount := 600, quoteMint := demoKey 22,
               sellerTokenAccount := demoKey 23, unlockStartDate := 700,
               unlockPeriod := 800, unlockAmount := 900,
               lastUnlockTime := 1000, sellerIndex := 2 } :=
  ⟨_, rfl, createBond_roundtrip (demoKey 20) (demoKey 21) 500 600
    (demoKey 22) (demoKey 23) 700 800 900 1000 (demoKey 24) 2 (demoKey 25)
    demoState _ demoState rfl (by decide) (by decide) (by decide)
    (by norm_num) (by norm_num) (by norm_num) (by norm_num) (by norm_num)
    (by norm_num) (by norm_num)⟩

/-- C8: no builder and no query mutates remote state — every successful run
returns the remote state it was given, its interaction with the endpoint
being reads alone. -/
theorem operations_preserve_state :
    (∀ n p, PreservesState (changeInflation n p)) ∧
    (∀ k n p, PreservesState (changePoolMinimum k n p)) ∧
    (∀ b d p, PreservesState (claimBondRewards b d p)) ∧
    (∀ b u q p, PreservesState (claimBond b u q p)) ∧
    (∀ a d p, PreservesState (claimPoolRewards a d p)) ∧
    (∀ a d p, PreservesState (claimRewards a d p)) ∧
    (∀ a p, PreservesState (closeStakeAccount a p)) ∧
    (∀ a p, PreservesState (closeStakePool a p)) ∧
    (∀ a p, PreservesState (crank a p)) ∧
    (∀ sl b t1 t2 q st u1 u2 u3 u4 sp i p,
      PreservesState (createBond sl b t1 t2 q st u1 u2 u3 u4 sp i p)) ∧
    (∀ d a fp m p, PreservesState (createCentralState d a fp m p)) ∧
    (∀ sp o fp p, PreservesState (createStakeAccount sp o fp p)) ∧
    (∀ nm o d m fp p, PreservesState (createStakePool nm o d m fp p)) ∧
    (∀ i a b p, PreservesState (signBond i a b p)) ∧
    (∀ a t n p, PreservesState (stake a t n p)) ∧
    (∀ b d p, PreservesState (unlockBondTokens b d p)) ∧
    (∀ a d n p, PreservesState (unstake a d n p)) ∧
    (∀ n d p, PreservesState (adminMint n d p)) ∧
    (∀ o, PreservesState (getStakeAccounts o)) ∧
    (∀ o, PreservesState (getStakePools o)) ∧
    (∀ o, PreservesState (getBondAccounts o)) ∧
    PreservesState getAllStakePools ∧
    PreservesState getAllInactiveStakePools ∧
    PreservesState getAllInactiveBonds ∧
    PreservesState getAllActiveBonds :=
  ⟨fun _ _ _ _ _ h => await_preserves h fun _ hv => ok_state_eq hv,
   fun _ _ _ _ _ _ h => await_preserves h fun _ hv => ok_state_eq hv,
   fun _ _ _ _ _ _ h => await_preserves h fun _ hv =>
     await_preserves hv fun _ hw => ok_state_eq hw,
   fun _ _ _ _ _ _ _ h => await_preserves h fun _ hv => ok_state_eq hv,
   fun _ _ _ _ _ _ h => await_preserves h fun _ hv =>
     await_preserves hv fun _ hw => ok_state_eq hw,
   fun _ _ _ _ _ _ h => await_preserves h fun _ hv =>
     await_preserves hv fun _ hw => ok_state_eq hw,
   fun _ _ _ _ _ h => await_preserves h fun _ hv => ok_state_eq hv,
   fun _ _ _ _ _ h => await_preserves h fun _ hv => ok_state_eq hv,
   fun _ _ _ _ _ h => ok_state_eq h,
   fun _ _ _ _ _ _ _ _ _ _ _ _ _ _ _ _ h => ok_state_eq h,
   fun _ _ _ _ _ _ _ _ h => ok_state_eq h,
   fun _ _ _ _ _ _ _ h => ok_state_eq h,
   fun _ _ _ _ _ _ _ _ _ h => await_preserves h fun _ hv => ok_state_eq hv,
   fun _ _ _ _ _ _ _ h => ok_state_eq h,
   fun _ _ _ _ _ _ _ h => await_preserves h fun _ hv =>
     await_preserves hv fun _ hw => ok_state_eq hw,
   fun _ _ _ _ _ _ h => await_preserves h fun _ hv =>
     await_preserves hv fun _ hw => ok_state_eq hw,
   fun _ _ _ _ _ _ _ h => await_preserves h fun _ hv =>
     await_preserves hv fun _ hw => ok_state_eq hw,
   fun _ _ _ _ _ _ h => await_preserves h fun _ hv => ok_state_eq hv,
   fun _ _ _ _ h => await_preserves h fun _ hv => ok_state_eq hv,
   fun _ _ _ _ h => await_preserves h fun _ hv => ok_state_eq hv,
   fun _ _ _ _ h => await_preserves h fun _ hv => ok_state_eq hv,
   fun _ _ _ h => await_preserves h fun _ hv => ok_state_eq hv,
   fun _ _ _ h => await_preserves h fun _ hv => ok_state_eq hv,
   fun _ _ _ h => await_preserves h fun _ hv => ok_state_eq hv,
   fun _ _ _ h => await_preserves h fun _ hv => ok_state_eq hv⟩

/-- C8 witness: a concrete successful `unstake` run returning the remote
state it was given. -/
theorem operations_preserve_state_witness :
    unstake (demoKey 1) (demoKey 2) 5 (demoKey 3) demoState =
      .ok (unstakeInstruction.getInstruction 5 (demoKey 3) (demoKey 1)
        (demoKey 15) (demoKey 13) (demoKey 2) TOKEN_PROGRAM_ID (demoKey 14),
        demoState) ∧
    demoState = demoState :=
  ⟨rfl, operations_preserve_state.2.2.2.2.2.2.2.2.2.2.2.2.2.2.2.2.1
    (demoKey 1) (demoKey 2) 5 (demoKey 3) demoState _ demoState rfl⟩

/-- C9 witness: the exclusion applied to a concrete inactive stake pool. -/
theorem getAllStakePools_active_only_witness :
    matchesFilters
      { pubkey := demoKey 30, discriminator := 3, ownerOffset := 32,
        owner := demoKey 13 } getAllStakePoolsFilters = false :=
  getAllStakePools_active_only.2.1
    { pubkey := demoKey 30, discriminator := 3, ownerOffset := 32,
      owner := demoKey 13 } rfl

end Access
